import Mathlib

/-!
Verification of the graph-assembly core of `graph_build/recipe_greap_gen.py`
(recipe knowledge-graph builder).

The embedding follows the Python source closely:
* Python strings are Lean `String`s (sequences of Unicode code points); the
  string helpers used by the source (`split`, `strip`, `replace`, `endswith`,
  `in`, `join`, `str(int)`, `set` de-duplication) are defined below with the
  exact CPython semantics, by structural recursion so that they evaluate
  inside the kernel.
* `RecipeKnowledgeGraphBuilder`'s mutable state (`concept_id_counter`,
  `concepts`, `relationships`) is an explicit `BuilderState` record threaded
  through the functions.
* Python dicts used as ad-hoc records (`concept`, `relationship` dicts) are
  Lean structures; keys that only appear for some concept kinds are `Option`
  fields defaulting to `none` (a missing key in the source dict).
* `process_recipe` first calls the external Kimi extraction service
  (`parse_recipe`); that call is outside the core per the spec, so the
  embedded `process_recipe` takes the already-structured `RecipeInfo` record
  plus the source file path, exactly the data the rest of the Python method
  consumes.
-/

namespace RecipeGraph

/-! ### Python string primitives -/

/-- Characters matched by Python's `str.isspace` / regex `\s` (Unicode mode,
which is the default for `str` patterns): ASCII whitespace, the C1 separator
block, and the Unicode space separators. -/
def isPySpace (c : Char) : Bool :=
  c = ' ' || c = '\t' || c = '\n' || c = '\x0b' || c = '\x0c' || c = '\r' ||
  c = '\x1c' || c = '\x1d' || c = '\x1e' || c = '\x1f' || c = '\u0085' ||
  c = '\u00A0' || c = '\u1680' ||
  ('\u2000' ≤ c && c ≤ '\u200A') ||
  c = '\u2028' || c = '\u2029' || c = '\u202F' || c = '\u205F' || c = '\u3000'

/-- Characters matched by the regex class `[a-zA-Z\s\-]` from `_is_english`. -/
def isEnglishChar (c : Char) : Bool :=
  ('a' ≤ c && c ≤ 'z') || ('A' ≤ c && c ≤ 'Z') || isPySpace c || c = '-'

/-- Characters matched by the regex class `[一-鿿]` from `_is_chinese`
(CJK unified ideographs). -/
def isCjkChar (c : Char) : Bool :=
  '\u4E00' ≤ c && c ≤ '\u9FFF'

/-- Python `s.split(sep)` for a single-character separator, on code points.
Like CPython, empty segments are kept and `"".split(sep) = [""]`. -/
def splitChars (sep : Char) : List Char → List (List Char)
  | [] => [[]]
  | c :: rest =>
    if c = sep then [] :: splitChars sep rest
    else
      match splitChars sep rest with
      | [] => [[c]]
      | g :: gs => (c :: g) :: gs

/-- Python `s.split(sep)` for a single-character separator. -/
def pySplit (s : String) (sep : Char) : List String :=
  (splitChars sep s.data).map String.mk

/-- Python `s.strip()`: remove leading and trailing whitespace. -/
def pyStrip (s : String) : String :=
  ⟨((s.data.dropWhile isPySpace).reverse.dropWhile isPySpace).reverse⟩

/-- Python `s.endswith(suffix)`. -/
def pyEndsWith (s suffix : String) : Bool :=
  suffix.data.isSuffixOf s.data

/-- Auxiliary for Python's substring test `pat in s`, structural on `s`. -/
def hasSubstr : List Char → List Char → Bool
  | s, pat =>
    pat.isPrefixOf s ||
      match s with
      | [] => false
      | _ :: rest => hasSubstr rest pat

/-- Python's substring containment `pat in s`. -/
def pyContains (s pat : String) : Bool :=
  hasSubstr s.data pat.data

/-- Auxiliary for Python `s.replace(pat, rep)`: scan left to right, replacing
each non-overlapping occurrence.  `fuel` bounds the recursion (one unit per
consumed character suffices); it is structural so the kernel can evaluate. -/
def replaceAllAux (pat rep : List Char) : Nat → List Char → List Char
  | 0, s => s
  | _ + 1, [] => []
  | fuel + 1, c :: rest =>
    if pat ≠ [] && pat.isPrefixOf (c :: rest) then
      rep ++ replaceAllAux pat rep fuel ((c :: rest).drop pat.length)
    else
      c :: replaceAllAux pat rep fuel rest

/-- Python `s.replace(pat, rep)` (all occurrences, left to right), for a
non-empty pattern (the source only replaces non-empty literals). -/
def pyReplace (s pat rep : String) : String :=
  ⟨replaceAllAux pat.data rep.data s.data.length s.data⟩

/-- Python `sep.join(xs)`. -/
def pyJoin (sep : String) (xs : List String) : String :=
  ⟨List.intercalate sep.data (xs.map String.data)⟩

/-- Auxiliary for `list(set(xs))`: keep the first occurrence of each element.
(CPython's set iteration order is unspecified; the source immediately treats
the result as a set, so we fix first-occurrence order.) -/
def dedupAux : List String → List String → List String
  | [], _ => []
  | x :: rest, seen =>
    if seen.contains x then dedupAux rest seen
    else x :: dedupAux rest (x :: seen)

/-- Python `list(set(xs))` with first-occurrence order. -/
def pyDedup (xs : List String) : List String :=
  dedupAux xs []

/-- Auxiliary for Python `str(n)`: emit decimal digits, most significant
first, in front of `acc`.  Structural on `fuel` (`n + 1` is always enough). -/
def toDecAux : Nat → Nat → List Char → List Char
  | 0, _, acc => acc
  | fuel + 1, n, acc =>
    if n < 10 then Nat.digitChar n :: acc
    else toDecAux fuel (n / 10) (Nat.digitChar (n % 10) :: acc)

/-- Python `str(n)` for a natural number. -/
def decStr (n : Nat) : String :=
  ⟨toDecAux (n + 1) n []⟩

/-- Python `str(i)` for an integer. -/
def intStr (i : Int) : String :=
  if i < 0 then "-" ++ decStr i.natAbs else decStr i.natAbs

/-- Python `f"{n:06d}"` for a natural number: pad with zeros to width ≥ 6. -/
def pad6 (n : Nat) : String :=
  ⟨List.replicate (6 - (decStr n).data.length) '0' ++ (decStr n).data⟩

/-- Numeric value of a list of decimal digit characters (used to state
injectivity/monotonicity of the generated identifier strings). -/
def decVal (cs : List Char) : Nat :=
  cs.foldl (fun a c => 10 * a + (c.toNat - 48)) 0

/-! ### Data model -/

/-- One entry of a concept's `synonyms` list:
`{"term": …, "language": …, "language_code": …}`. -/
structure SynonymRecord where
  term : String
  language : String
  language_code : String
deriving DecidableEq

/-- `IngredientInfo` dataclass. -/
structure IngredientInfo where
  name : String
  amount : String := ""
  unit : String := ""
  category : String := ""
  is_main : Bool := true
deriving DecidableEq

/-- `CookingStep` dataclass. -/
structure CookingStep where
  step_number : Int
  description : String
  methods : List String
  tools : List String
  time_estimate : String := ""
deriving DecidableEq

/-- `RecipeInfo` dataclass (the structured record produced by the extraction
service; `nutrition_info` is carried but never read by `process_recipe`). -/
structure RecipeInfo where
  name : String
  difficulty : Int
  category : String
  cuisine_type : String := ""
  prep_time : String := ""
  cook_time : String := ""
  servings : String := ""
  ingredients : List IngredientInfo := []
  steps : List CookingStep := []
  tags : List String := []
  nutrition_info : List (String × String) := []
deriving DecidableEq

/-- A concept dict.  The builder produces three shapes (Recipe, Ingredient,
CookingStep) and the predefined ontology a fourth; keys absent from a given
shape are `none`. -/
structure Concept where
  concept_id : String
  concept_type : String
  name : String
  fsn : String
  preferred_term : String
  synonyms : List SynonymRecord := []
  category : Option String := none
  difficulty : Option Int := none
  cuisine_type : Option String := none
  prep_time : Option String := none
  cook_time : Option String := none
  servings : Option String := none
  tags : Option String := none
  file_path : Option String := none
  amount : Option String := none
  unit : Option String := none
  is_main : Option Bool := none
  description : Option String := none
  step_number : Option Int := none
  methods : Option String := none
  tools : Option String := none
  time_estimate : Option String := none
deriving DecidableEq

/-- A relationship dict. -/
structure Relationship where
  relationship_id : String
  source_id : String
  target_id : String
  relationship_type : String
  amount : Option String := none
  unit : Option String := none
  step_order : Option Int := none
deriving DecidableEq

/-- The mutable state of `RecipeKnowledgeGraphBuilder`:
`concept_id_counter`, `concepts`, `relationships`. -/
structure BuilderState where
  concept_id_counter : Nat
  concepts : List Concept
  relationships : List Relationship
deriving DecidableEq

/-! ### Fixed tables -/

/-- `_init_relationship_mappings`. -/
def relationship_type_mapping : List (String × String) :=
  [("has_ingredient", "801000001"),
   ("requires_tool", "801000002"),
   ("has_step", "801000003"),
   ("belongs_to_category", "801000004"),
   ("has_difficulty", "801000005"),
   ("uses_method", "801000006"),
   ("has_amount", "801000007"),
   ("step_follows", "801000008"),
   ("serves_people", "801000009"),
   ("cooking_time", "801000010"),
   ("prep_time", "801000011")]

/-- Dict access `relationship_type_mapping[key]` (all keys used exist). -/
def relType (key : String) : String :=
  (relationship_type_mapping.lookup key).getD ""

/-- `_init_predefined_concepts`: the fixed ontology (root, top-level anchors,
difficulty levels, recipe categories).  These dicts have no `synonyms` key or
other extras, hence the defaults. -/
def predefined_concepts : List Concept :=
  [{ concept_id := "100000000", concept_type := "Root", name := "烹饪概念",
     fsn := "烹饪概念 (Culinary Concept)", preferred_term := "烹饪概念" },
   { concept_id := "200000000", concept_type := "Recipe", name := "菜谱",
     fsn := "菜谱 (Recipe)", preferred_term := "菜谱" },
   { concept_id := "300000000", concept_type := "Ingredient", name := "食材",
     fsn := "食材 (Ingredient)", preferred_term := "食材" },
   { concept_id := "400000000", concept_type := "CookingMethod", name := "烹饪方法",
     fsn := "烹饪方法 (Cooking Method)", preferred_term := "烹饪方法" },
   { concept_id := "500000000", concept_type := "CookingTool", name := "烹饪工具",
     fsn := "烹饪工具 (Cooking Tool)", preferred_term := "烹饪工具" },
   { concept_id := "610000000", concept_type := "DifficultyLevel", name := "一星",
     fsn := "一星 (One Star)", preferred_term := "一星" },
   { concept_id := "620000000", concept_type := "DifficultyLevel", name := "二星",
     fsn := "二星 (Two Star)", preferred_term := "二星" },
   { concept_id := "630000000", concept_type := "DifficultyLevel", name := "三星",
     fsn := "三星 (Three Star)", preferred_term := "三星" },
   { concept_id := "640000000", concept_type := "DifficultyLevel", name := "四星",
     fsn := "四星 (Four Star)", preferred_term := "四星" },
   { concept_id := "650000000", concept_type := "DifficultyLevel", name := "五星",
     fsn := "五星 (Five Star)", preferred_term := "五星" },
   { concept_id := "710000000", concept_type := "RecipeCategory", name := "素菜",
     fsn := "素菜 (Vegetarian Dish)", preferred_term := "素菜" },
   { concept_id := "720000000", concept_type := "RecipeCategory", name := "荤菜",
     fsn := "荤菜 (Meat Dish)", preferred_term := "荤菜" },
   { concept_id := "730000000", concept_type := "RecipeCategory", name := "水产",
     fsn := "水产 (Aquatic Product)", preferred_term := "水产" },
   { concept_id := "740000000", concept_type := "RecipeCategory", name := "早餐",
     fsn := "早餐 (Breakfast)", preferred_term := "早餐" },
   { concept_id := "750000000", concept_type := "RecipeCategory", name := "主食",
     fsn := "主食 (Staple Food)", preferred_term := "主食" },
   { concept_id := "760000000", concept_type := "RecipeCategory", name := "汤类",
     fsn := "汤类 (Soup)", preferred_term := "汤类" },
   { concept_id := "770000000", concept_type := "RecipeCategory", name := "甜品",
     fsn := "甜品 (Dessert)", preferred_term := "甜品" },
   { concept_id := "780000000", concept_type := "RecipeCategory", name := "饮料",
     fsn := "饮料 (Beverage)", preferred_term := "饮料" },
   { concept_id := "790000000", concept_type := "RecipeCategory", name := "调料",
     fsn := "调料 (Condiment)", preferred_term := "调料" }]

/-! ### Language detection and synonym generation -/

/-- `_is_english`: `len(re.findall(r'[a-zA-Z\s\-]', text)) / len(text) > 0.7
if text else False`.  The float comparison with the literal `0.7` agrees with
the exact rational comparison `10 * count > 7 * len` for every string whose
length is below 2^53 / ulp-margin (far beyond any representable input), so the
embedding uses the exact form. -/
def _is_english (text : String) : Bool :=
  if text = "" then false
  else decide (7 * text.data.length < 10 * (text.data.filter isEnglishChar).length)

/-- `_is_chinese`: `len(re.findall(r'[一-鿿]', text)) > 0`. -/
def _is_chinese (text : String) : Bool :=
  decide (0 < (text.data.filter isCjkChar).length)

/-- The record built for one synonym in `_categorize_synonyms_by_language`. -/
def categorizeOne (synonym : String) : SynonymRecord :=
  if _is_english synonym then
    { term := synonym, language := "en", language_code := "en-US" }
  else if _is_chinese synonym then
    { term := synonym, language := "zh", language_code := "zh-CN" }
  else
    -- 默认为中文
    { term := synonym, language := "zh", language_code := "zh-CN" }

/-- `_categorize_synonyms_by_language`: tag each synonym with a language. -/
def _categorize_synonyms_by_language (synonyms : List String) : List SynonymRecord :=
  synonyms.map categorizeOne

/-- `cooking_method_mappings` from `_generate_recipe_synonyms`
(insertion order of the Python dict). -/
def cooking_method_mappings : List (String × List String) :=
  [("红烧", ["braised"]),
   ("糖醋", ["sweet and sour"]),
   ("清炒", ["炒制", "stir-fried"]),
   ("蒸", ["清蒸", "steamed"]),
   ("炖", ["煲", "stewed"]),
   ("烤", ["烘烤", "roasted", "baked"]),
   ("炸", ["油炸", "deep-fried"]),
   ("焖", ["闷", "braised"]),
   ("煎", ["pan-fried"]),
   ("爆炒", ["stir-fried"]),
   ("白切", ["boiled"]),
   ("油焖", ["oil-braised"])]

/-- `ingredient_aliases` from `_generate_recipe_synonyms`. -/
def ingredient_aliases : List (String × List String) :=
  [("茄子", ["青茄子", "紫茄子", "eggplant"]),
   ("土豆", ["马铃薯", "洋芋", "potato"]),
   ("西红柿", ["番茄", "tomato"]),
   ("青椒", ["彩椒", "甜椒", "bell pepper"]),
   ("豆腐", ["嫩豆腐", "老豆腐", "tofu"]),
   ("白菜", ["大白菜", "小白菜", "cabbage"]),
   ("萝卜", ["白萝卜", "胡萝卜", "radish"])]

/-- `regional_mappings` from `_generate_recipe_synonyms`. -/
def regional_mappings : List (String × List String) :=
  [("川味", ["四川风味", "川菜风格"]),
   ("粤式", ["广东风味", "粤菜风格"]),
   ("京味", ["北京风味", "京菜风格"]),
   ("湘味", ["湖南风味", "湘菜风格"])]

/-- The cooking-method loop of `_generate_recipe_synonyms`: for each table
entry whose key occurs in `name`, append the substitution of every variant
distinct from the key, skipping substitutions that leave `name` unchanged. -/
def methodSynonyms (name : String) : List String :=
  cooking_method_mappings.foldl
    (fun acc p =>
      if pyContains name p.1 then
        p.2.foldl
          (fun acc2 variant =>
            if variant ≠ p.1 then
              let synonym := pyReplace name p.1 variant
              if synonym ≠ name then acc2 ++ [synonym] else acc2
            else acc2)
          acc
      else acc)
    []

/-- The ingredient-alias loop of `_generate_recipe_synonyms` (same shape as
the method loop). -/
def ingredientAliasSynonyms (name : String) : List String :=
  ingredient_aliases.foldl
    (fun acc p =>
      if pyContains name p.1 then
        p.2.foldl
          (fun acc2 aliasName =>
            if aliasName ≠ p.1 then
              let synonym := pyReplace name p.1 aliasName
              if synonym ≠ name then acc2 ++ [synonym] else acc2
            else acc2)
          acc
      else acc)
    []

/-- The regional-style loop of `_generate_recipe_synonyms` (no
`variant ≠ region` guard in the source). -/
def regionalSynonyms (name : String) : List String :=
  regional_mappings.foldl
    (fun acc p =>
      if pyContains name p.1 then
        p.2.foldl
          (fun acc2 variant =>
            let synonym := pyReplace name p.1 variant
            if synonym ≠ name then acc2 ++ [synonym] else acc2)
          acc
      else acc)
    []

/-- `_generate_recipe_synonyms(name, category)`.  The `category` parameter is
declared by the source method but never read in its body. -/
def _generate_recipe_synonyms (name : String) (category : String) : List SynonymRecord :=
  let baseSynonyms :=
    if pyEndsWith name "的做法" then
      let base_name := pyReplace name "的做法" ""
      [base_name ++ "制作方法", base_name ++ "烹饪方法", base_name]
    else []
  let synonyms :=
    baseSynonyms ++ methodSynonyms name ++ ingredientAliasSynonyms name ++
      regionalSynonyms name
  let unique_synonyms := pyDedup synonyms
  _categorize_synonyms_by_language unique_synonyms

/-- `ingredient_synonym_dict` from `_generate_ingredient_synonyms`. -/
def ingredient_synonym_dict : List (String × List String) :=
  [("青茄子", ["茄子", "紫茄子", "圆茄"]),
   ("西红柿", ["番茄", "洋柿子"]),
   ("土豆", ["马铃薯", "洋芋", "地蛋"]),
   ("红薯", ["地瓜", "甘薯", "山芋"]),
   ("玉米", ["苞米", "玉蜀黍"]),
   ("青椒", ["柿子椒", "甜椒", "彩椒"]),
   ("大葱", ["葱白", "韭葱"]),
   ("小葱", ["香葱", "细葱"]),
   ("香菜", ["芫荽", "胡荽"]),
   ("菠菜", ["赤根菜", "波斯菜"]),
   ("生抽", ["淡色酱油", "鲜味酱油"]),
   ("老抽", ["深色酱油", "红烧酱油"]),
   ("料酒", ["黄酒", "绍兴酒"]),
   ("白糖", ["细砂糖", "绵白糖"]),
   ("冰糖", ["冰片糖", "块糖"]),
   ("八角", ["大料", "茴香"]),
   ("鸡蛋", ["鸡子", "土鸡蛋"]),
   ("豆腐", ["水豆腐", "嫩豆腐"])]

/-- `_generate_ingredient_synonyms(name)`: dictionary lookup with default
`[]`, then language tagging. -/
def _generate_ingredient_synonyms (name : String) : List SynonymRecord :=
  _categorize_synonyms_by_language ((ingredient_synonym_dict.lookup name).getD [])

/-! ### The builder -/

/-- `generate_concept_id`: increment the counter, return it as a string. -/
def generate_concept_id (s : BuilderState) : BuilderState × String :=
  let counter := s.concept_id_counter + 1
  ({ s with concept_id_counter := counter }, decStr counter)

/-- The state of a freshly constructed `RecipeKnowledgeGraphBuilder`
(`__init__`): counter `201000000`, empty concept and relationship lists.
(`output_dir`/`batch_size` only affect export plumbing, which is out of the
core; `predefined_concepts` is a separate attribute, not part of the store.) -/
def initialState : BuilderState :=
  { concept_id_counter := 201000000, concepts := [], relationships := [] }

/-- The ingredient concept dict built in the ingredient loop of
`process_recipe`. -/
def ingredientConcept (ing_id : String) (ingredient : IngredientInfo) : Concept :=
  { concept_id := ing_id,
    concept_type := "Ingredient",
    name := ingredient.name,
    fsn := ingredient.name ++ " (Ingredient)",
    preferred_term := ingredient.name,
    synonyms := _generate_ingredient_synonyms ingredient.name,
    category := some ingredient.category,
    amount := some ingredient.amount,
    unit := some ingredient.unit,
    is_main := some ingredient.is_main }

/-- The ingredient loop body of `process_recipe`: allocate an id, append the
Ingredient concept, then append the `has_ingredient` relationship. -/
def addIngredient (recipe_id : String) (s : BuilderState)
    (ingredient : IngredientInfo) : BuilderState :=
  let (s1, ing_id) := generate_concept_id s
  let s2 := { s1 with concepts := s1.concepts ++ [ingredientConcept ing_id ingredient] }
  let rel : Relationship :=
    { relationship_id := "R_" ++ pad6 (s2.relationships.length + 1),
      source_id := recipe_id,
      target_id := ing_id,
      relationship_type := relType "has_ingredient",
      amount := some ingredient.amount,
      unit := some ingredient.unit }
  { s2 with relationships := s2.relationships ++ [rel] }

/-- The cooking-step concept dict built in the step loop of
`process_recipe`. -/
def stepConcept (step_id : String) (step : CookingStep) : Concept :=
  { concept_id := step_id,
    concept_type := "CookingStep",
    name := "步骤" ++ intStr step.step_number,
    fsn := "步骤" ++ intStr step.step_number ++ " (Cooking Step)",
    preferred_term := "步骤" ++ intStr step.step_number,
    description := some step.description,
    step_number := some step.step_number,
    methods := some (pyJoin "," step.methods),
    tools := some (pyJoin "," step.tools),
    time_estimate := some step.time_estimate }

/-- The step loop body of `process_recipe`: allocate an id, append the
CookingStep concept, then append the `has_step` relationship. -/
def addStep (recipe_id : String) (s : BuilderState) (step : CookingStep) :
    BuilderState :=
  let (s1, step_id) := generate_concept_id s
  let s2 := { s1 with concepts := s1.concepts ++ [stepConcept step_id step] }
  let rel : Relationship :=
    { relationship_id := "R_" ++ pad6 (s2.relationships.length + 1),
      source_id := recipe_id,
      target_id := step_id,
      relationship_type := relType "has_step",
      step_order := some step.step_number }
  { s2 with relationships := s2.relationships ++ [rel] }

/-- `category_mapping` from `process_recipe`. -/
def category_mapping : List (String × String) :=
  [("素菜", "710000000"),
   ("荤菜", "720000000"),
   ("水产", "730000000"),
   ("早餐", "740000000"),
   ("主食", "750000000"),
   ("汤类", "760000000"),
   ("甜品", "770000000"),
   ("饮料", "780000000"),
   ("调料", "790000000")]

/-- `difficulty_mapping` from `process_recipe`. -/
def difficulty_mapping : List (Int × String) :=
  [(1, "610000000"),
   (2, "620000000"),
   (3, "630000000"),
   (4, "640000000"),
   (5, "650000000")]

/-- The category-segment list of `process_recipe`:
`[cat.strip() for cat in category.split(',') if cat.strip()]`. -/
def categorySegments (category : String) : List String :=
  ((pySplit category ',').map pyStrip).filter (fun cat => cat ≠ "")

/-- The category loop body of `process_recipe`: if the segment is a key of
`category_mapping`, append a `belongs_to_category` relationship. -/
def addOneCategory (recipe_id : String) (s : BuilderState) (category : String) :
    BuilderState :=
  match category_mapping.lookup category with
  | some target =>
    { s with relationships := s.relationships ++
        [{ relationship_id := "R_" ++ pad6 (s.relationships.length + 1),
           source_id := recipe_id,
           target_id := target,
           relationship_type := relType "belongs_to_category" }] }
  | none => s

/-- The difficulty linkage of `process_recipe`: if the difficulty is a key of
`difficulty_mapping`, append a `has_difficulty` relationship. -/
def addDifficulty (recipe_id : String) (difficulty : Int) (s : BuilderState) :
    BuilderState :=
  match difficulty_mapping.lookup difficulty with
  | some target =>
    { s with relationships := s.relationships ++
        [{ relationship_id := "R_" ++ pad6 (s.relationships.length + 1),
           source_id := recipe_id,
           target_id := target,
           relationship_type := relType "has_difficulty" }] }
  | none => s

/-- The recipe concept dict built at the start of `process_recipe`. -/
def recipeConcept (recipe_id : String) (recipe_info : RecipeInfo)
    (file_path : String) : Concept :=
  { concept_id := recipe_id,
    concept_type := "Recipe",
    name := recipe_info.name,
    fsn := recipe_info.name ++ " (Recipe)",
    preferred_term := recipe_info.name,
    synonyms := _generate_recipe_synonyms recipe_info.name recipe_info.category,
    category := some recipe_info.category,
    difficulty := some recipe_info.difficulty,
    cuisine_type := some recipe_info.cuisine_type,
    prep_time := some recipe_info.prep_time,
    cook_time := some recipe_info.cook_time,
    servings := some recipe_info.servings,
    tags := some (pyJoin "," recipe_info.tags),
    file_path := some file_path }

/-- `process_recipe` after the external `parse_recipe` call: build the recipe
concept, the ingredient and step concepts with their relationships, the
category and difficulty linkage, and return the recipe concept dict. -/
def process_recipe (s : BuilderState) (recipe_info : RecipeInfo)
    (file_path : String) : BuilderState × Concept :=
  let (s1, recipe_id) := generate_concept_id s
  let recipe_concept := recipeConcept recipe_id recipe_info file_path
  let s2 := { s1 with concepts := s1.concepts ++ [recipe_concept] }
  let s3 := recipe_info.ingredients.foldl (addIngredient recipe_id) s2
  let s4 := recipe_info.steps.foldl (addStep recipe_id) s3
  let s5 := (categorySegments recipe_info.category).foldl (addOneCategory recipe_id) s4
  let s6 := addDifficulty recipe_id recipe_info.difficulty s5
  (s6, recipe_concept)

/-- A batch of `process_recipe` calls on one builder. -/
def processBatch (s : BuilderState) (batch : List (RecipeInfo × String)) :
    BuilderState :=
  batch.foldl (fun st p => (process_recipe st p.1 p.2).1) s

/-! ### Derived notions used by the verification -/

/-- The state after appending the recipe concept inside `process_recipe`. -/
def stateAfterRecipeConcept (s : BuilderState) (r : RecipeInfo)
    (fp : String) : BuilderState :=
  { concept_id_counter := s.concept_id_counter + 1,
    concepts := s.concepts ++ [recipeConcept (decStr (s.concept_id_counter + 1)) r fp],
    relationships := s.relationships }

/-- `s'` extends `s`: both stores only grew (append-only evolution). -/
def Extends (s s' : BuilderState) : Prop :=
  (∃ cs, s'.concepts = s.concepts ++ cs) ∧
  (∃ rs, s'.relationships = s.relationships ++ rs)

/-- `i` is the `concept_id` of a concept in the store or in the predefined
ontology. -/
def idPresent (s : BuilderState) (i : String) : Prop :=
  (∃ c ∈ s.concepts, c.concept_id = i) ∨
  (∃ c ∈ predefined_concepts, c.concept_id = i)

/-- Referential integrity of the relationship store. -/
def refsOK (s : BuilderState) : Prop :=
  ∀ rel ∈ s.relationships, idPresent s rel.source_id ∧ idPresent s rel.target_id

/-- All relationship type codes that the builder ever emits. -/
def emittedRelTypes : List String :=
  ["801000001", "801000003", "801000004", "801000005"]

/-- All concept types that the builder ever emits. -/
def emittedConceptTypes : List String :=
  ["Recipe", "Ingredient", "CookingStep"]

/-- Every stored relationship and concept carries one of the emitted types. -/
def typesOK (s : BuilderState) : Prop :=
  (∀ rel ∈ s.relationships, rel.relationship_type ∈ emittedRelTypes) ∧
  (∀ c ∈ s.concepts, c.concept_type ∈ emittedConceptTypes)

/-- The relationship ids are exactly `R_` + zero-padded position (1-based). -/
def relIdsOK (s : BuilderState) : Prop :=
  s.relationships.map (fun r => r.relationship_id)
    = (List.range s.relationships.length).map (fun i => "R_" ++ pad6 (i + 1))

/-- The run-local counter encoded in a relationship id (`R_000007` ↦ 7). -/
def relNum (rel : Relationship) : Nat :=
  decVal (rel.relationship_id.data.drop 2)

/-- The `(source_id, target_id)` pairs of the `belongs_to_category`
relationships in the store, in creation order. -/
def belongsPairs (s : BuilderState) : List (String × String) :=
  (s.relationships.filter (fun r => r.relationship_type == "801000004")).map
    (fun r => (r.source_id, r.target_id))

/-- The `(source_id, target_id)` pairs of the `has_difficulty` relationships
in the store, in creation order. -/
def difficultyPairs (s : BuilderState) : List (String × String) :=
  (s.relationships.filter (fun r => r.relationship_type == "801000005")).map
    (fun r => (r.source_id, r.target_id))

/-- The outputs of `n` successive `generate_concept_id` calls. -/
def allocRun : Nat → BuilderState → List String
  | 0, _ => []
  | n + 1, s =>
    let p := generate_concept_id s
    p.2 :: allocRun n p.1

/-- A dynamically-typed Python return value: `process_recipe` could return
the concept-id string (as the spec's contract asserts) or the concept dict
(as the source's `return recipe_concept` does). -/
inductive PyReturn where
  | str (s : String)
  | dict (c : Concept)
deriving DecidableEq

/-- The value `process_recipe` actually returns, with its dynamic type made
explicit. -/
def process_recipe_return (s : BuilderState) (r : RecipeInfo)
    (fp : String) : PyReturn :=
  .dict (process_recipe s r fp).2

/-- A concrete cooking step used to exercise the theorems. -/
def demoStep : CookingStep :=
  { step_number := 1, description := "搅拌均匀", methods := ["炒"],
    tools := ["锅"], time_estimate := "1分钟" }

/-- A concrete ingredient used to exercise the theorems. -/
def demoIngredient : IngredientInfo :=
  { name := "鸡蛋", amount := "2", unit := "个", category := "蛋白质",
    is_main := true }

/-- A concrete structured recipe record used to exercise the theorems. -/
def demoRecipe : RecipeInfo :=
  { name := "测试", difficulty := 0, category := "", ingredients := [],
    steps := [demoStep], tags := [] }

/-- A concrete record with one ingredient and one step (two relationships). -/
def demoRecipe2 : RecipeInfo :=
  { name := "测试", difficulty := 0, category := "",
    ingredients := [demoIngredient], steps := [demoStep], tags := [] }

/-- The single relationship created when processing `demoRecipe`. -/
def demoRelStep : Relationship :=
  { relationship_id := "R_000001", source_id := "201000001",
    target_id := "201000002", relationship_type := "801000003",
    step_order := some 1 }

/-- The first relationship created when processing `demoRecipe2`. -/
def demoRelIngredient2 : Relationship :=
  { relationship_id := "R_000001", source_id := "201000001",
    target_id := "201000002", relationship_type := "801000001",
    amount := some "2", unit := some "个" }

/-- The second relationship created when processing `demoRecipe2`. -/
def demoRelStep2 : Relationship :=
  { relationship_id := "R_000002", source_id := "201000001",
    target_id := "201000003", relationship_type := "801000003",
    step_order := some 1 }

/-- The CookingStep concept created when processing `demoRecipe`. -/
def demoStepConcept : Concept :=
  stepConcept "201000002" demoStep

/-- `demoRecipe` with the two-category field `早餐,素菜`. -/
def demoRecipeCatA : RecipeInfo :=
  { demoRecipe with category := "早餐,素菜" }

/-- `demoRecipe` with the spaced two-category field `早餐, 素菜`. -/
def demoRecipeCatB : RecipeInfo :=
  { demoRecipe with category := "早餐, 素菜" }

/-- `demoRecipe` with unrecognized and empty category segments. -/
def demoRecipeCatBad : RecipeInfo :=
  { demoRecipe with category := "夜宵,, 不存在" }

/-- `demoRecipe` with difficulty 3. -/
def demoRecipeDiff3 : RecipeInfo :=
  { demoRecipe with difficulty := 3 }

/-- `demoRecipe` with out-of-range difficulty 6. -/
def demoRecipeDiff6 : RecipeInfo :=
  { demoRecipe with difficulty := 6 }

/-! ### Decimal-string lemmas -/

theorem digitChar_toNat {d : Nat} (h : d < 10) : (Nat.digitChar d).toNat = d + 48 := by
  interval_cases d <;> rfl

theorem toDecAux_foldl (fuel : Nat) : ∀ (n : Nat) (acc : List Char),
    n < 10 ^ fuel →
    (toDecAux fuel n acc).foldl (fun a c => 10 * a + (c.toNat - 48)) 0
      = acc.foldl (fun a c => 10 * a + (c.toNat - 48)) n := by
  induction fuel with
  | zero =>
    intro n acc h
    interval_cases n
    simp [toDecAux]
  | succ fuel ih =>
    intro n acc h
    by_cases h10 : n < 10
    · simp [toDecAux, h10, digitChar_toNat h10]
    · have hdiv : n / 10 < 10 ^ fuel := by
        have hlt : n < 10 ^ fuel * 10 := by
          calc n < 10 ^ (fuel + 1) := h
          _ = 10 ^ fuel * 10 := pow_succ 10 fuel
        exact Nat.div_lt_of_lt_mul (by rw [Nat.mul_comm]; exact hlt)
      have hmod : n % 10 < 10 := Nat.mod_lt n (by norm_num)
      rw [toDecAux, if_neg h10, ih (n / 10) _ hdiv]
      simp only [List.foldl_cons, digitChar_toNat hmod]
      congr 1
      omega

theorem lt_ten_pow_succ (n : Nat) : n < 10 ^ (n + 1) :=
  lt_of_lt_of_le (Nat.lt_two_pow n)
    (le_trans (Nat.pow_le_pow_left (by norm_num) n)
      (Nat.pow_le_pow_right (by norm_num) (Nat.le_succ n)))

/-- `str(n)` round-trips through its numeric value. -/
theorem decVal_decStr (n : Nat) : decVal (decStr n).data = n := by
  have h := toDecAux_foldl (n + 1) n [] (lt_ten_pow_succ n)
  simpa [decVal, decStr] using h

theorem decStr_inj {m n : Nat} (h : decStr m = decStr n) : m = n := by
  have h2 : decVal (decStr m).data = decVal (decStr n).data := by rw [h]
  simpa [decVal_decStr] using h2

theorem foldl_replicate_zero (k : Nat) :
    (List.replicate k '0').foldl (fun a c => 10 * a + (c.toNat - 48)) 0 = 0 := by
  induction k with
  | zero => rfl
  | succ k ih => simpa [List.replicate_succ] using ih

/-- The zero-padded counter also round-trips through its numeric value. -/
theorem decVal_pad6 (n : Nat) : decVal (pad6 n).data = n := by
  have h0 := foldl_replicate_zero (6 - (decStr n).data.length)
  have h := decVal_decStr n
  simp only [pad6, decVal, List.foldl_append] at *
  rw [h0]
  exact h

theorem pad6_inj {m n : Nat} (h : pad6 m = pad6 n) : m = n := by
  have h2 : decVal (pad6 m).data = decVal (pad6 n).data := by rw [h]
  rw [decVal_pad6, decVal_pad6] at h2
  exact h2

theorem String.data_append_eq (a b : String) : (a ++ b).data = a.data ++ b.data :=
  rfl

/-- The numeric counter recovered from a relationship id `R_......`. -/
theorem decVal_relId (n : Nat) : decVal (("R_" ++ pad6 n).data.drop 2) = n := by
  rw [String.data_append_eq]
  show decVal ((['R', '_'] ++ (pad6 n).data).drop 2) = n
  simpa using decVal_pad6 n

theorem relId_inj {m n : Nat} (h : "R_" ++ pad6 m = "R_" ++ pad6 n) : m = n := by
  have h2 : decVal (("R_" ++ pad6 m).data.drop 2)
      = decVal (("R_" ++ pad6 n).data.drop 2) := by rw [h]
  rw [decVal_relId, decVal_relId] at h2
  exact h2

/-! ### Generic list and state-extension lemmas -/

theorem foldl_preserve {α σ : Type} {P : σ → Prop} {f : σ → α → σ}
    (hf : ∀ s a, P s → P (f s a)) :
    ∀ (l : List α) (s : σ), P s → P (l.foldl f s) := by
  intro l
  induction l with
  | nil => intro s h; exact h
  | cons a t ih => intro s h; exact ih (f s a) (hf s a h)

theorem Extends.rfl (s : BuilderState) : Extends s s :=
  ⟨⟨[], by simp⟩, ⟨[], by simp⟩⟩

theorem Extends.trans {s1 s2 s3 : BuilderState} (h1 : Extends s1 s2)
    (h2 : Extends s2 s3) : Extends s1 s3 := by
  obtain ⟨⟨cs1, hc1⟩, ⟨rs1, hr1⟩⟩ := h1
  obtain ⟨⟨cs2, hc2⟩, ⟨rs2, hr2⟩⟩ := h2
  exact ⟨⟨cs1 ++ cs2, by rw [hc2, hc1, List.append_assoc]⟩,
         ⟨rs1 ++ rs2, by rw [hr2, hr1, List.append_assoc]⟩⟩

theorem extends_addIngredient (recipe_id : String) (s : BuilderState)
    (ing : IngredientInfo) : Extends s (addIngredient recipe_id s ing) :=
  ⟨⟨_, Eq.refl _⟩, ⟨_, Eq.refl _⟩⟩

theorem extends_addStep (recipe_id : String) (s : BuilderState)
    (st : CookingStep) : Extends s (addStep recipe_id s st) :=
  ⟨⟨_, Eq.refl _⟩, ⟨_, Eq.refl _⟩⟩

theorem extends_addOneCategory (recipe_id : String) (s : BuilderState)
    (cat : String) : Extends s (addOneCategory recipe_id s cat) := by
  unfold addOneCategory
  cases category_mapping.lookup cat with
  | none => exact Extends.rfl s
  | some target => exact ⟨⟨[], by simp⟩, ⟨_, Eq.refl _⟩⟩

theorem extends_addDifficulty (recipe_id : String) (d : Int) (s : BuilderState) :
    Extends s (addDifficulty recipe_id d s) := by
  unfold addDifficulty
  cases difficulty_mapping.lookup d with
  | none => exact Extends.rfl s
  | some target => exact ⟨⟨[], by simp⟩, ⟨_, Eq.refl _⟩⟩

theorem extends_foldl {α : Type} {f : BuilderState → α → BuilderState}
    (hf : ∀ s a, Extends s (f s a)) :
    ∀ (l : List α) (s : BuilderState), Extends s (l.foldl f s) := by
  intro l
  induction l with
  | nil => intro s; exact Extends.rfl s
  | cons a t ih => intro s; exact Extends.trans (hf s a) (ih (f s a))

/-- Unfolding of the state produced by `process_recipe`. -/
theorem process_recipe_fst (s : BuilderState) (r : RecipeInfo) (fp : String) :
    (process_recipe s r fp).1 =
      addDifficulty (decStr (s.concept_id_counter + 1)) r.difficulty
        ((categorySegments r.category).foldl
          (addOneCategory (decStr (s.concept_id_counter + 1)))
          (r.steps.foldl (addStep (decStr (s.concept_id_counter + 1)))
            (r.ingredients.foldl (addIngredient (decStr (s.concept_id_counter + 1)))
              (stateAfterRecipeConcept s r fp)))) :=
  rfl

/-- Unfolding of the concept returned by `process_recipe`. -/
theorem process_recipe_snd (s : BuilderState) (r : RecipeInfo) (fp : String) :
    (process_recipe s r fp).2 =
      recipeConcept (decStr (s.concept_id_counter + 1)) r fp :=
  rfl

theorem extends_process_recipe (s : BuilderState) (r : RecipeInfo)
    (fp : String) : Extends s (process_recipe s r fp).1 := by
  rw [process_recipe_fst]
  refine Extends.trans ?_ (extends_addDifficulty _ _ _)
  refine Extends.trans ?_ (extends_foldl (extends_addOneCategory _) _ _)
  refine Extends.trans ?_ (extends_foldl (extends_addStep _) _ _)
  refine Extends.trans ?_ (extends_foldl (extends_addIngredient _) _ _)
  exact ⟨⟨[recipeConcept (decStr (s.concept_id_counter + 1)) r fp], rfl⟩,
         ⟨[], by simp [stateAfterRecipeConcept]⟩⟩

/-! ### Unfolding lemmas for the loop bodies -/

theorem addIngredient_def (recipe_id : String) (s : BuilderState)
    (ingredient : IngredientInfo) :
    addIngredient recipe_id s ingredient =
      { concept_id_counter := s.concept_id_counter + 1,
        concepts := s.concepts ++
          [ingredientConcept (decStr (s.concept_id_counter + 1)) ingredient],
        relationships := s.relationships ++
          [{ relationship_id := "R_" ++ pad6 (s.relationships.length + 1),
             source_id := recipe_id,
             target_id := decStr (s.concept_id_counter + 1),
             relationship_type := relType "has_ingredient",
             amount := some ingredient.amount,
             unit := some ingredient.unit }] } :=
  rfl

theorem addStep_def (recipe_id : String) (s : BuilderState) (step : CookingStep) :
    addStep recipe_id s step =
      { concept_id_counter := s.concept_id_counter + 1,
        concepts := s.concepts ++ [stepConcept (decStr (s.concept_id_counter + 1)) step],
        relationships := s.relationships ++
          [{ relationship_id := "R_" ++ pad6 (s.relationships.length + 1),
             source_id := recipe_id,
             target_id := decStr (s.concept_id_counter + 1),
             relationship_type := relType "has_step",
             step_order := some step.step_number }] } :=
  rfl

theorem addOneCategory_some {cat target : String}
    (h : category_mapping.lookup cat = some target) (recipe_id : String)
    (s : BuilderState) :
    addOneCategory recipe_id s cat =
      { s with relationships := s.relationships ++
          [{ relationship_id := "R_" ++ pad6 (s.relationships.length + 1),
             source_id := recipe_id,
             target_id := target,
             relationship_type := relType "belongs_to_category" }] } := by
  unfold addOneCategory
  rw [h]

theorem addOneCategory_none {cat : String}
    (h : category_mapping.lookup cat = none) (recipe_id : String)
    (s : BuilderState) :
    addOneCategory recipe_id s cat = s := by
  unfold addOneCategory
  rw [h]

theorem addDifficulty_some {d : Int} {target : String}
    (h : difficulty_mapping.lookup d = some target) (recipe_id : String)
    (s : BuilderState) :
    addDifficulty recipe_id d s =
      { s with relationships := s.relationships ++
          [{ relationship_id := "R_" ++ pad6 (s.relationships.length + 1),
             source_id := recipe_id,
             target_id := target,
             relationship_type := relType "has_difficulty" }] } := by
  unfold addDifficulty
  rw [h]

theorem addDifficulty_none {d : Int}
    (h : difficulty_mapping.lookup d = none) (recipe_id : String)
    (s : BuilderState) :
    addDifficulty recipe_id d s = s := by
  unfold addDifficulty
  rw [h]

/-! ### Lookup lemmas -/

theorem lookup_mem {α β : Type} [BEq α] [LawfulBEq α] :
    ∀ (l : List (α × β)) (a : α) (b : β), l.lookup a = some b → ∃ p ∈ l, p.2 = b := by
  intro l
  induction l with
  | nil => intro a b h; simp [List.lookup] at h
  | cons p t ih =>
    intro a b h
    rw [List.lookup] at h
    by_cases hk : a == p.1
    · refine ⟨p, List.mem_cons_self p t, ?_⟩
      rw [hk] at h
      simpa using h
    · rw [Bool.not_eq_true] at hk
      rw [hk] at h
      obtain ⟨q, hq, hqe⟩ := ih a b h
      exact ⟨q, List.mem_cons_of_mem p hq, hqe⟩

/-- Every category-mapping target id names a predefined concept. -/
theorem category_target_predefined {cat target : String}
    (h : category_mapping.lookup cat = some target) :
    ∃ c ∈ predefined_concepts, c.concept_id = target := by
  obtain ⟨p, hp, hpe⟩ := lookup_mem _ _ _ h
  subst hpe
  fin_cases hp <;> decide

/-- Every difficulty-mapping target id names a predefined concept. -/
theorem difficulty_target_predefined {d : Int} {target : String}
    (h : difficulty_mapping.lookup d = some target) :
    ∃ c ∈ predefined_concepts, c.concept_id = target := by
  obtain ⟨p, hp, hpe⟩ := lookup_mem _ _ _ h
  subst hpe
  fin_cases hp <;> decide

/-- Out-of-range difficulties are not keys of `difficulty_mapping`. -/
theorem difficulty_lookup_none {d : Int} (h : ¬(1 ≤ d ∧ d ≤ 5)) :
    difficulty_mapping.lookup d = none := by
  have h1 : (d == (1 : Int)) = false := beq_eq_false_iff_ne.mpr (by omega)
  have h2 : (d == (2 : Int)) = false := beq_eq_false_iff_ne.mpr (by omega)
  have h3 : (d == (3 : Int)) = false := beq_eq_false_iff_ne.mpr (by omega)
  have h4 : (d == (4 : Int)) = false := beq_eq_false_iff_ne.mpr (by omega)
  have h5 : (d == (5 : Int)) = false := beq_eq_false_iff_ne.mpr (by omega)
  simp [difficulty_mapping, List.lookup, h1, h2, h3, h4, h5]

/-! ### Referential integrity -/

theorem idPresent_extends {s s' : BuilderState} (hE : Extends s s') {i : String}
    (h : idPresent s i) : idPresent s' i := by
  obtain ⟨⟨cs, hc⟩, -⟩ := hE
  cases h with
  | inl h =>
    obtain ⟨c, hmem, hid⟩ := h
    exact Or.inl ⟨c, by rw [hc]; exact List.mem_append_left _ hmem, hid⟩
  | inr h => exact Or.inr h

/-- A single append step: the new state has the same counter semantics,
concepts extended by `cs`, relationships extended by rels whose endpoints are
present in the new state. -/
theorem refsOK_of_append {s s' : BuilderState} (h : refsOK s)
    (hE : Extends s s') (newRels : List Relationship)
    (hr : s'.relationships = s.relationships ++ newRels)
    (hnew : ∀ rel ∈ newRels, idPresent s' rel.source_id ∧ idPresent s' rel.target_id) :
    refsOK s' := by
  intro rel hmem
  rw [hr] at hmem
  rcases List.mem_append.mp hmem with hold | hnewm
  · obtain ⟨h1, h2⟩ := h rel hold
    exact ⟨idPresent_extends hE h1, idPresent_extends hE h2⟩
  · exact hnew rel hnewm

theorem refsOK_addIngredient (rid : String) (s : BuilderState)
    (ing : IngredientInfo) (h : refsOK s ∧ idPresent s rid) :
    refsOK (addIngredient rid s ing) ∧ idPresent (addIngredient rid s ing) rid := by
  have hE : Extends s (addIngredient rid s ing) := extends_addIngredient rid s ing
  constructor
  · refine refsOK_of_append h.1 hE
      [{ relationship_id := "R_" ++ pad6 (s.relationships.length + 1),
         source_id := rid,
         target_id := decStr (s.concept_id_counter + 1),
         relationship_type := relType "has_ingredient",
         amount := some ing.amount,
         unit := some ing.unit }] ?_ ?_
    · rw [addIngredient_def]
    · intro rel hmem
      rw [List.mem_singleton] at hmem
      subst hmem
      refine ⟨idPresent_extends hE h.2, Or.inl ?_⟩
      refine ⟨ingredientConcept (decStr (s.concept_id_counter + 1)) ing, ?_, rfl⟩
      rw [addIngredient_def]
      exact List.mem_append_right _ (List.mem_singleton.mpr rfl)
  · exact idPresent_extends hE h.2

theorem refsOK_addStep (rid : String) (s : BuilderState) (st : CookingStep)
    (h : refsOK s ∧ idPresent s rid) :
    refsOK (addStep rid s st) ∧ idPresent (addStep rid s st) rid := by
  have hE : Extends s (addStep rid s st) := extends_addStep rid s st
  constructor
  · refine refsOK_of_append h.1 hE
      [{ relationship_id := "R_" ++ pad6 (s.relationships.length + 1),
         source_id := rid,
         target_id := decStr (s.concept_id_counter + 1),
         relationship_type := relType "has_step",
         step_order := some st.step_number }] ?_ ?_
    · rw [addStep_def]
    · intro rel hmem
      rw [List.mem_singleton] at hmem
      subst hmem
      refine ⟨idPresent_extends hE h.2, Or.inl ?_⟩
      refine ⟨stepConcept (decStr (s.concept_id_counter + 1)) st, ?_, rfl⟩
      rw [addStep_def]
      exact List.mem_append_right _ (List.mem_singleton.mpr rfl)
  · exact idPresent_extends hE h.2

theorem refsOK_addOneCategory (rid : String) (s : BuilderState) (cat : String)
    (h : refsOK s ∧ idPresent s rid) :
    refsOK (addOneCategory rid s cat) ∧ idPresent (addOneCategory rid s cat) rid := by
  have hE : Extends s (addOneCategory rid s cat) := extends_addOneCategory rid s cat
  refine ⟨?_, idPresent_extends hE h.2⟩
  cases hc : category_mapping.lookup cat with
  | none => rw [addOneCategory_none hc]; exact h.1
  | some target =>
    refine refsOK_of_append h.1 hE
      [{ relationship_id := "R_" ++ pad6 (s.relationships.length + 1),
         source_id := rid,
         target_id := target,
         relationship_type := relType "belongs_to_category" }] ?_ ?_
    · rw [addOneCategory_some hc]
    · intro rel hmem
      rw [List.mem_singleton] at hmem
      subst hmem
      exact ⟨idPresent_extends hE h.2, Or.inr (category_target_predefined hc)⟩

theorem refsOK_addDifficulty (rid : String) (d : Int) (s : BuilderState)
    (h : refsOK s ∧ idPresent s rid) : refsOK (addDifficulty rid d s) := by
  have hE : Extends s (addDifficulty rid d s) := extends_addDifficulty rid d s
  cases hc : difficulty_mapping.lookup d with
  | none => rw [addDifficulty_none hc]; exact h.1
  | some target =>
    refine refsOK_of_append h.1 hE
      [{ relationship_id := "R_" ++ pad6 (s.relationships.length + 1),
         source_id := rid,
         target_id := target,
         relationship_type := relType "has_difficulty" }] ?_ ?_
    · rw [addDifficulty_some hc]
    · intro rel hmem
      rw [List.mem_singleton] at hmem
      subst hmem
      exact ⟨idPresent_extends hE h.2, Or.inr (difficulty_target_predefined hc)⟩

theorem refsOK_process_recipe (s : BuilderState) (r : RecipeInfo) (fp : String)
    (h : refsOK s) : refsOK (process_recipe s r fp).1 := by
  rw [process_recipe_fst]
  set rid := decStr (s.concept_id_counter + 1) with hrid
  have h0 : refsOK (stateAfterRecipeConcept s r fp) ∧
      idPresent (stateAfterRecipeConcept s r fp) rid := by
    constructor
    · have hE0 : Extends s (stateAfterRecipeConcept s r fp) :=
        ⟨⟨_, Eq.refl _⟩, ⟨[], by simp [stateAfterRecipeConcept]⟩⟩
      exact refsOK_of_append h hE0 [] (by simp [stateAfterRecipeConcept])
        (by intro rel hmem; cases hmem)
    · exact Or.inl ⟨recipeConcept rid r fp,
        List.mem_append_right _ (List.mem_singleton.mpr rfl), rfl⟩
  have h1 := foldl_preserve (refsOK_addIngredient rid) r.ingredients _ h0
  have h2 := foldl_preserve (refsOK_addStep rid) r.steps _ h1
  have h3 := foldl_preserve (refsOK_addOneCategory rid) (categorySegments r.category) _ h2
  exact refsOK_addDifficulty rid r.difficulty _ h3

theorem refsOK_processBatch (batch : List (RecipeInfo × String)) :
    refsOK (processBatch initialState batch) := by
  have h0 : refsOK initialState := by intro rel hmem; cases hmem
  exact foldl_preserve (fun s p h => refsOK_process_recipe s p.1 p.2 h) batch
    initialState h0

/-! ### Type invariants (which relationship/concept types are ever emitted) -/

/-- Extending both stores with well-typed entries preserves `typesOK`. -/
theorem typesOK_of_append {s s' : BuilderState} (h : typesOK s)
    (newRels : List Relationship) (newConcepts : List Concept)
    (hr : s'.relationships = s.relationships ++ newRels)
    (hc : s'.concepts = s.concepts ++ newConcepts)
    (hr2 : ∀ rel ∈ newRels, rel.relationship_type ∈ emittedRelTypes)
    (hc2 : ∀ c ∈ newConcepts, c.concept_type ∈ emittedConceptTypes) :
    typesOK s' := by
  constructor
  · intro rel hmem
    rw [hr] at hmem
    rcases List.mem_append.mp hmem with hold | hnew
    · exact h.1 rel hold
    · exact hr2 rel hnew
  · intro c hmem
    rw [hc] at hmem
    rcases List.mem_append.mp hmem with hold | hnew
    · exact h.2 c hold
    · exact hc2 c hnew

theorem typesOK_addIngredient (rid : String) (s : BuilderState)
    (ing : IngredientInfo) (h : typesOK s) : typesOK (addIngredient rid s ing) := by
  rw [addIngredient_def]
  refine typesOK_of_append h _ _ rfl rfl ?_ ?_
  · intro rel hmem
    rw [List.mem_singleton] at hmem
    subst hmem
    show relType "has_ingredient" ∈ emittedRelTypes
    decide
  · intro c hmem
    rw [List.mem_singleton] at hmem
    subst hmem
    show "Ingredient" ∈ emittedConceptTypes
    decide

theorem typesOK_addStep (rid : String) (s : BuilderState) (st : CookingStep)
    (h : typesOK s) : typesOK (addStep rid s st) := by
  rw [addStep_def]
  refine typesOK_of_append h _ _ rfl rfl ?_ ?_
  · intro rel hmem
    rw [List.mem_singleton] at hmem
    subst hmem
    show relType "has_step" ∈ emittedRelTypes
    decide
  · intro c hmem
    rw [List.mem_singleton] at hmem
    subst hmem
    show "CookingStep" ∈ emittedConceptTypes
    decide

theorem typesOK_addOneCategory (rid : String) (s : BuilderState) (cat : String)
    (h : typesOK s) : typesOK (addOneCategory rid s cat) := by
  cases hc : category_mapping.lookup cat with
  | none => rw [addOneCategory_none hc]; exact h
  | some target =>
    rw [addOneCategory_some hc]
    refine typesOK_of_append h _ [] rfl (by simp) ?_ ?_
    · intro rel hmem
      rw [List.mem_singleton] at hmem
      subst hmem
      show relType "belongs_to_category" ∈ emittedRelTypes
      decide
    · intro c hmem
      cases hmem

theorem typesOK_addDifficulty (rid : String) (d : Int) (s : BuilderState)
    (h : typesOK s) : typesOK (addDifficulty rid d s) := by
  cases hc : difficulty_mapping.lookup d with
  | none => rw [addDifficulty_none hc]; exact h
  | some target =>
    rw [addDifficulty_some hc]
    refine typesOK_of_append h _ [] rfl (by simp) ?_ ?_
    · intro rel hmem
      rw [List.mem_singleton] at hmem
      subst hmem
      show relType "has_difficulty" ∈ emittedRelTypes
      decide
    · intro c hmem
      cases hmem

theorem typesOK_process_recipe (s : BuilderState) (r : RecipeInfo) (fp : String)
    (h : typesOK s) : typesOK (process_recipe s r fp).1 := by
  rw [process_recipe_fst]
  set rid := decStr (s.concept_id_counter + 1) with hrid
  have h0 : typesOK (stateAfterRecipeConcept s r fp) := by
    refine typesOK_of_append h [] _ (by
      simp [stateAfterRecipeConcept]) rfl (by intro rel hmem; cases hmem) ?_
    intro c hmem
    rw [List.mem_singleton] at hmem
    subst hmem
    show "Recipe" ∈ emittedConceptTypes
    decide
  have h1 := foldl_preserve (fun s' a h' => typesOK_addIngredient rid s' a h')
    r.ingredients _ h0
  have h2 := foldl_preserve (fun s' a h' => typesOK_addStep rid s' a h') r.steps _ h1
  have h3 := foldl_preserve (fun s' a h' => typesOK_addOneCategory rid s' a h')
    (categorySegments r.category) _ h2
  exact typesOK_addDifficulty rid r.difficulty _ h3

theorem typesOK_processBatch (batch : List (RecipeInfo × String)) :
    typesOK (processBatch initialState batch) := by
  have h0 : typesOK initialState :=
    ⟨fun rel hmem => absurd hmem (by simp [initialState]),
     fun c hmem => absurd hmem (by simp [initialState])⟩
  exact foldl_preserve (fun s p h => typesOK_process_recipe s p.1 p.2 h) batch
    initialState h0

/-- After the step fold, every step of the recipe has its CookingStep concept
(with comma-joined `methods`/`tools` text fields) in the store. -/
theorem stepConcept_in_fold (rid : String) :
    ∀ (steps : List CookingStep) (s : BuilderState), ∀ st ∈ steps,
      ∃ c ∈ (steps.foldl (addStep rid) s).concepts,
        c.concept_type = "CookingStep" ∧
        c.methods = some (pyJoin "," st.methods) ∧
        c.tools = some (pyJoin "," st.tools) ∧
        c.step_number = some st.step_number := by
  intro steps
  induction steps with
  | nil => intro s st hmem; cases hmem
  | cons st0 rest ih =>
    intro s st hmem
    rcases List.mem_cons.mp hmem with heq | htail
    · have hE : Extends (addStep rid s st0)
          (rest.foldl (addStep rid) (addStep rid s st0)) :=
        extends_foldl (extends_addStep rid) rest (addStep rid s st0)
      obtain ⟨cs, hcs⟩ := hE.1
      refine ⟨stepConcept (decStr (s.concept_id_counter + 1)) st0, ?_, ?_⟩
      · rw [List.foldl_cons, hcs, addStep_def]
        exact List.mem_append_left _
          (List.mem_append_right _ (List.mem_singleton.mpr rfl))
      · rw [heq]
        exact ⟨rfl, rfl, rfl, rfl⟩
    · rw [List.foldl_cons]
      exact ih (addStep rid s st0) st htail

/-- Concept membership survives later stages of `process_recipe`. -/
theorem stepConcept_in_process (s : BuilderState) (r : RecipeInfo) (fp : String) :
    ∀ st ∈ r.steps,
      ∃ c ∈ (process_recipe s r fp).1.concepts,
        c.concept_type = "CookingStep" ∧
        c.methods = some (pyJoin "," st.methods) ∧
        c.tools = some (pyJoin "," st.tools) ∧
        c.step_number = some st.step_number := by
  intro st hmem
  rw [process_recipe_fst]
  set rid := decStr (s.concept_id_counter + 1)
  set s3 := r.ingredients.foldl (addIngredient rid) (stateAfterRecipeConcept s r fp)
  obtain ⟨c, hc, hprops⟩ := stepConcept_in_fold rid r.steps s3 st hmem
  have hE : Extends (r.steps.foldl (addStep rid) s3)
      (addDifficulty rid r.difficulty
        ((categorySegments r.category).foldl (addOneCategory rid)
          (r.steps.foldl (addStep rid) s3))) :=
    Extends.trans (extends_foldl (extends_addOneCategory rid) _ _)
      (extends_addDifficulty rid r.difficulty _)
  obtain ⟨cs, hcs⟩ := hE.1
  exact ⟨c, by rw [hcs]; exact List.mem_append_left _ hc, hprops⟩

/-! ### Relationship-id invariant -/

theorem relIdsOK_append_one {s s' : BuilderState} (rel : Relationship)
    (hr : s'.relationships = s.relationships ++ [rel])
    (hid : rel.relationship_id = "R_" ++ pad6 (s.relationships.length + 1))
    (h : relIdsOK s) : relIdsOK s' := by
  unfold relIdsOK at *
  rw [hr, List.map_append, h, List.length_append, List.length_singleton,
    List.range_succ, List.map_append]
  simp [hid]

theorem relIdsOK_same {s s' : BuilderState}
    (hr : s'.relationships = s.relationships) (h : relIdsOK s) : relIdsOK s' := by
  unfold relIdsOK at *
  rw [hr]
  exact h

theorem relIdsOK_addIngredient (rid : String) (s : BuilderState)
    (ing : IngredientInfo) (h : relIdsOK s) : relIdsOK (addIngredient rid s ing) := by
  rw [addIngredient_def]
  exact relIdsOK_append_one _ rfl rfl h

theorem relIdsOK_addStep (rid : String) (s : BuilderState) (st : CookingStep)
    (h : relIdsOK s) : relIdsOK (addStep rid s st) := by
  rw [addStep_def]
  exact relIdsOK_append_one _ rfl rfl h

theorem relIdsOK_addOneCategory (rid : String) (s : BuilderState) (cat : String)
    (h : relIdsOK s) : relIdsOK (addOneCategory rid s cat) := by
  cases hc : category_mapping.lookup cat with
  | none => rw [addOneCategory_none hc]; exact h
  | some target =>
    rw [addOneCategory_some hc]
    exact relIdsOK_append_one _ rfl rfl h

theorem relIdsOK_addDifficulty (rid : String) (d : Int) (s : BuilderState)
    (h : relIdsOK s) : relIdsOK (addDifficulty rid d s) := by
  cases hc : difficulty_mapping.lookup d with
  | none => rw [addDifficulty_none hc]; exact h
  | some target =>
    rw [addDifficulty_some hc]
    exact relIdsOK_append_one _ rfl rfl h

theorem relIdsOK_process_recipe (s : BuilderState) (r : RecipeInfo) (fp : String)
    (h : relIdsOK s) : relIdsOK (process_recipe s r fp).1 := by
  rw [process_recipe_fst]
  set rid := decStr (s.concept_id_counter + 1)
  have h0 : relIdsOK (stateAfterRecipeConcept s r fp) := relIdsOK_same rfl h
  have h1 := foldl_preserve (fun s' a h' => relIdsOK_addIngredient rid s' a h')
    r.ingredients _ h0
  have h2 := foldl_preserve (fun s' a h' => relIdsOK_addStep rid s' a h') r.steps _ h1
  have h3 := foldl_preserve (fun s' a h' => relIdsOK_addOneCategory rid s' a h')
    (categorySegments r.category) _ h2
  exact relIdsOK_addDifficulty rid r.difficulty _ h3

theorem relIdsOK_processBatch (batch : List (RecipeInfo × String)) :
    relIdsOK (processBatch initialState batch) := by
  have h0 : relIdsOK initialState := by
    unfold relIdsOK initialState
    rfl
  exact foldl_preserve (fun s p h => relIdsOK_process_recipe s p.1 p.2 h) batch
    initialState h0

/-- Positionally, the `i`-th (0-based) relationship has id `R_` + pad(i+1). -/
theorem relIdsOK_get? {s : BuilderState} (h : relIdsOK s) {i : Nat}
    {rel : Relationship} (hg : s.relationships.get? i = some rel) :
    rel.relationship_id = "R_" ++ pad6 (i + 1) := by
  have hi : i < s.relationships.length := by
    by_contra hcon
    push_neg at hcon
    rw [List.get?_eq_none.mpr hcon] at hg
    cases hg
  have hmap : (s.relationships.map (fun r => r.relationship_id)).get? i
      = ((List.range s.relationships.length).map (fun j => "R_" ++ pad6 (j + 1))).get? i := by
    rw [h]
  rw [List.get?_map, List.get?_map, hg, List.get?_range hi] at hmap
  simpa using hmap

theorem relIdsOK_nodup {s : BuilderState} (h : relIdsOK s) :
    (s.relationships.map (fun r => r.relationship_id)).Nodup := by
  rw [h]
  refine List.Nodup.map ?_ (List.nodup_range _)
  intro i j hij
  have := relId_inj hij
  omega

/-! ### Allocator runs -/

theorem allocRun_eq : ∀ (n : Nat) (s : BuilderState),
    allocRun n s = (List.range n).map (fun i => decStr (s.concept_id_counter + i + 1)) := by
  intro n
  induction n with
  | zero => intro s; rfl
  | succ n ih =>
    intro s
    rw [allocRun, List.range_succ_eq_map, List.map_cons, List.map_map]
    refine congrArg₂ _ rfl ?_
    rw [ih]
    refine List.map_congr_left ?_
    intro i _
    show decStr (s.concept_id_counter + 1 + i + 1) = decStr (s.concept_id_counter + (i + 1) + 1)
    congr 1
    omega

/-! ### Category / difficulty relationship bookkeeping -/

theorem belongsPairs_addIngredient (rid : String) (s : BuilderState)
    (ing : IngredientInfo) : belongsPairs (addIngredient rid s ing) = belongsPairs s := by
  simp [belongsPairs, addIngredient_def, List.filter_append, List.filter_cons,
    show ((relType "has_ingredient" == "801000004") = false) from by decide]

theorem belongsPairs_addStep (rid : String) (s : BuilderState) (st : CookingStep) :
    belongsPairs (addStep rid s st) = belongsPairs s := by
  simp [belongsPairs, addStep_def, List.filter_append, List.filter_cons,
    show ((relType "has_step" == "801000004") = false) from by decide]

theorem belongsPairs_addDifficulty (rid : String) (d : Int) (s : BuilderState) :
    belongsPairs (addDifficulty rid d s) = belongsPairs s := by
  cases hc : difficulty_mapping.lookup d with
  | none => rw [addDifficulty_none hc]
  | some target =>
    rw [addDifficulty_some hc]
    simp [belongsPairs, List.filter_append, List.filter_cons,
      show ((relType "has_difficulty" == "801000004") = false) from by decide]

theorem belongsPairs_addOneCategory (rid : String) (s : BuilderState) (cat : String) :
    belongsPairs (addOneCategory rid s cat) = belongsPairs s ++
      ((category_mapping.lookup cat).map (fun cid => (rid, cid))).toList := by
  cases hc : category_mapping.lookup cat with
  | none =>
    rw [addOneCategory_none hc]
    simp
  | some target =>
    rw [addOneCategory_some hc]
    simp [belongsPairs, List.filter_append, List.filter_cons,
      show ((relType "belongs_to_category" == "801000004") = true) from by decide]

theorem belongsPairs_catFold (rid : String) : ∀ (cats : List String) (s : BuilderState),
    belongsPairs (cats.foldl (addOneCategory rid) s) = belongsPairs s ++
      cats.filterMap (fun cat => (category_mapping.lookup cat).map (fun cid => (rid, cid))) := by
  intro cats
  induction cats with
  | nil => intro s; simp
  | cons cat rest ih =>
    intro s
    rw [List.foldl_cons, ih, belongsPairs_addOneCategory, List.filterMap_cons]
    cases hc : category_mapping.lookup cat with
    | none => simp [hc]
    | some target => simp [hc]

theorem difficultyPairs_addIngredient (rid : String) (s : BuilderState)
    (ing : IngredientInfo) : difficultyPairs (addIngredient rid s ing) = difficultyPairs s := by
  simp [difficultyPairs, addIngredient_def, List.filter_append, List.filter_cons,
    show ((relType "has_ingredient" == "801000005") = false) from by decide]

theorem difficultyPairs_addStep (rid : String) (s : BuilderState) (st : CookingStep) :
    difficultyPairs (addStep rid s st) = difficultyPairs s := by
  simp [difficultyPairs, addStep_def, List.filter_append, List.filter_cons,
    show ((relType "has_step" == "801000005") = false) from by decide]

theorem difficultyPairs_addOneCategory (rid : String) (s : BuilderState)
    (cat : String) : difficultyPairs (addOneCategory rid s cat) = difficultyPairs s := by
  cases hc : category_mapping.lookup cat with
  | none => rw [addOneCategory_none hc]
  | some target =>
    rw [addOneCategory_some hc]
    simp [difficultyPairs, List.filter_append, List.filter_cons,
      show ((relType "belongs_to_category" == "801000005") = false) from by decide]

theorem difficultyPairs_addDifficulty (rid : String) (d : Int) (s : BuilderState) :
    difficultyPairs (addDifficulty rid d s) = difficultyPairs s ++
      ((difficulty_mapping.lookup d).map (fun did => (rid, did))).toList := by
  cases hc : difficulty_mapping.lookup d with
  | none =>
    rw [addDifficulty_none hc]
    simp
  | some target =>
    rw [addDifficulty_some hc]
    simp [difficultyPairs, List.filter_append, List.filter_cons,
      show ((relType "has_difficulty" == "801000005") = true) from by decide]

theorem difficultyPairs_catFold (rid : String) :
    ∀ (cats : List String) (s : BuilderState),
    difficultyPairs (cats.foldl (addOneCategory rid) s) = difficultyPairs s := by
  intro cats
  induction cats with
  | nil => intro s; rfl
  | cons cat rest ih =>
    intro s
    rw [List.foldl_cons, ih, difficultyPairs_addOneCategory]

theorem pairs_fold_eq {α : Type} {g : BuilderState → List (String × String)}
    {f : BuilderState → α → BuilderState} (hf : ∀ s a, g (f s a) = g s) :
    ∀ (l : List α) (s : BuilderState), g (l.foldl f s) = g s := by
  intro l
  induction l with
  | nil => intro s; rfl
  | cons a t ih =>
    intro s
    rw [List.foldl_cons, ih, hf]

theorem belongsPairs_process (s : BuilderState) (r : RecipeInfo) (fp : String) :
    belongsPairs (process_recipe s r fp).1 = belongsPairs s ++
      (categorySegments r.category).filterMap
        (fun cat => (category_mapping.lookup cat).map
          (fun cid => (decStr (s.concept_id_counter + 1), cid))) := by
  rw [process_recipe_fst]
  set rid := decStr (s.concept_id_counter + 1)
  rw [belongsPairs_addDifficulty, belongsPairs_catFold,
    pairs_fold_eq (belongsPairs_addStep rid),
    pairs_fold_eq (belongsPairs_addIngredient rid)]
  have h0 : belongsPairs (stateAfterRecipeConcept s r fp) = belongsPairs s := rfl
  rw [h0]

theorem difficultyPairs_process (s : BuilderState) (r : RecipeInfo) (fp : String) :
    difficultyPairs (process_recipe s r fp).1 = difficultyPairs s ++
      ((difficulty_mapping.lookup r.difficulty).map
        (fun did => (decStr (s.concept_id_counter + 1), did))).toList := by
  rw [process_recipe_fst]
  set rid := decStr (s.concept_id_counter + 1)
  rw [difficultyPairs_addDifficulty, difficultyPairs_catFold,
    pairs_fold_eq (difficultyPairs_addStep rid),
    pairs_fold_eq (difficultyPairs_addIngredient rid)]
  have h0 : difficultyPairs (stateAfterRecipeConcept s r fp) = difficultyPairs s := rfl
  rw [h0]

/-! ### Synonym-generation support lemmas -/

theorem mem_dedupAux : ∀ (l seen : List String) (x : String),
    x ∈ l → seen.contains x = false → x ∈ dedupAux l seen := by
  intro l
  induction l with
  | nil => intro seen x hx _; cases hx
  | cons y rest ih =>
    intro seen x hx hseen
    rw [dedupAux]
    rcases List.mem_cons.mp hx with heq | htail
    · subst heq
      rw [hseen]
      exact List.mem_cons_self x _
    · by_cases hxy : x = y
      · subst hxy
        rw [hseen]
        exact List.mem_cons_self x _
      · by_cases hy : seen.contains y
        · rw [hy]
          simp only [if_true]
          exact ih seen x htail hseen
        · rw [Bool.not_eq_true] at hy
          rw [hy]
          simp only [Bool.false_eq_true, if_false]
          refine List.mem_cons_of_mem y (ih (y :: seen) x htail ?_)
          rw [List.contains_cons, hseen, Bool.or_false]
          exact beq_eq_false_iff_ne.mpr hxy

theorem mem_pyDedup {l : List String} {x : String} (h : x ∈ l) : x ∈ pyDedup l :=
  mem_dedupAux l [] x h rfl

theorem categorizeOne_term (t : String) : (categorizeOne t).term = t := by
  by_cases h1 : _is_english t <;> by_cases h2 : _is_chinese t <;>
    simp [categorizeOne, h1, h2]

theorem mem_categorize {l : List String} {x : String} (h : x ∈ l) :
    ∃ rec ∈ _categorize_synonyms_by_language l, rec.term = x :=
  ⟨categorizeOne x, List.mem_map_of_mem categorizeOne h, categorizeOne_term x⟩

/-- Shape of `_generate_recipe_synonyms` when the name ends in 的做法. -/
theorem generate_recipe_synonyms_of_endsWith {name : String}
    (h : pyEndsWith name "的做法" = true) (category : String) :
    _generate_recipe_synonyms name category =
      _categorize_synonyms_by_language (pyDedup
        ([pyReplace name "的做法" "" ++ "制作方法",
          pyReplace name "的做法" "" ++ "烹饪方法",
          pyReplace name "的做法" ""] ++
         methodSynonyms name ++ ingredientAliasSynonyms name ++
         regionalSynonyms name)) := by
  unfold _generate_recipe_synonyms
  rw [h]
  simp

/-! ### Claims -/

/-- C1: after any sequence of `process_recipe` calls, every relationship in
the store has a `source_id` and a `target_id` that are each the `concept_id`
of some concept present in the store or in the predefined ontology. -/
theorem C1_relationship_endpoints_exist (batch : List (RecipeInfo × String))
    (rel : Relationship)
    (hmem : rel ∈ (processBatch initialState batch).relationships) :
    idPresent (processBatch initialState batch) rel.source_id ∧
    idPresent (processBatch initialState batch) rel.target_id :=
  refsOK_processBatch batch rel hmem

/-- Witness for C1 on a concrete one-recipe batch. -/
theorem C1_witness :
    demoRelStep ∈ (processBatch initialState [(demoRecipe, "p")]).relationships ∧
    (idPresent (processBatch initialState [(demoRecipe, "p")]) demoRelStep.source_id ∧
     idPresent (processBatch initialState [(demoRecipe, "p")]) demoRelStep.target_id) :=
  ⟨by decide, C1_relationship_endpoints_exist [(demoRecipe, "p")] demoRelStep (by decide)⟩

/-- C2: for any prior state and any record, the `belongs_to_category`
relationships added by `process_recipe` are exactly those of the recognized
trimmed comma-segments of the category field, in order, sourced at the new
recipe concept; with `category = "早餐,素菜"` (or `"早餐, 素菜"`) that is
exactly the two edges to 740000000 (早餐) and 710000000 (素菜); unrecognized
or empty segments produce no relationship (and the function is total, so no
error is raised). -/
theorem C2_category_relationships (s : BuilderState) (r : RecipeInfo)
    (fp : String) :
    (belongsPairs (process_recipe s r fp).1 = belongsPairs s ++
      (categorySegments r.category).filterMap
        (fun cat => (category_mapping.lookup cat).map
          (fun cid => ((process_recipe s r fp).2.concept_id, cid)))) ∧
    (r.category = "早餐,素菜" →
      belongsPairs (process_recipe s r fp).1 = belongsPairs s ++
        [((process_recipe s r fp).2.concept_id, "740000000"),
         ((process_recipe s r fp).2.concept_id, "710000000")]) ∧
    (r.category = "早餐, 素菜" →
      belongsPairs (process_recipe s r fp).1 = belongsPairs s ++
        [((process_recipe s r fp).2.concept_id, "740000000"),
         ((process_recipe s r fp).2.concept_id, "710000000")]) ∧
    ((∀ seg ∈ (pySplit r.category ',').map pyStrip,
        category_mapping.lookup seg = none) →
      belongsPairs (process_recipe s r fp).1 = belongsPairs s) := by
  have hsnd : (process_recipe s r fp).2.concept_id
      = decStr (s.concept_id_counter + 1) := rfl
  refine ⟨?_, ?_, ?_, ?_⟩
  · rw [belongsPairs_process, hsnd]
  · intro h
    rw [belongsPairs_process, hsnd, h]
    have hseg : categorySegments "早餐,素菜" = ["早餐", "素菜"] := by decide
    rw [hseg]
    simp [List.filterMap_cons,
      show category_mapping.lookup "早餐" = some "740000000" from by decide,
      show category_mapping.lookup "素菜" = some "710000000" from by decide]
  · intro h
    rw [belongsPairs_process, hsnd, h]
    have hseg : categorySegments "早餐, 素菜" = ["早餐", "素菜"] := by decide
    rw [hseg]
    simp [List.filterMap_cons,
      show category_mapping.lookup "早餐" = some "740000000" from by decide,
      show category_mapping.lookup "素菜" = some "710000000" from by decide]
  · intro h
    rw [belongsPairs_process]
    have hnil : (categorySegments r.category).filterMap
        (fun cat => (category_mapping.lookup cat).map
          (fun cid => (decStr (s.concept_id_counter + 1), cid))) = [] := by
      rw [List.filterMap_eq_nil]
      intro cat hcat
      have hmem : cat ∈ (pySplit r.category ',').map pyStrip :=
        (List.mem_filter.mp hcat).1
      rw [h cat hmem]
      rfl
    rw [hnil, List.append_nil]

/-- Witness for C2 on concrete records. -/
theorem C2_witness :
    (belongsPairs (process_recipe initialState demoRecipeCatA "p").1 =
      belongsPairs initialState ++
        [((process_recipe initialState demoRecipeCatA "p").2.concept_id, "740000000"),
         ((process_recipe initialState demoRecipeCatA "p").2.concept_id, "710000000")]) ∧
    (belongsPairs (process_recipe initialState demoRecipeCatB "p").1 =
      belongsPairs initialState ++
        [((process_recipe initialState demoRecipeCatB "p").2.concept_id, "740000000"),
         ((process_recipe initialState demoRecipeCatB "p").2.concept_id, "710000000")]) ∧
    (belongsPairs (process_recipe initialState demoRecipeCatBad "p").1 =
      belongsPairs initialState) :=
  ⟨(C2_category_relationships initialState demoRecipeCatA "p").2.1 rfl,
   (C2_category_relationships initialState demoRecipeCatB "p").2.2.1 rfl,
   (C2_category_relationships initialState demoRecipeCatBad "p").2.2.2 (by decide)⟩

/-- C3: `process_recipe` on a record with `difficulty = 3` appends exactly
one `has_difficulty` relationship, from the new recipe concept to concept
`630000000`; any difficulty outside 1..5 appends none (and no error is
raised, the function being total). -/
theorem C3_difficulty_relationships (s : BuilderState) (r : RecipeInfo)
    (fp : String) :
    (r.difficulty = 3 →
      difficultyPairs (process_recipe s r fp).1 = difficultyPairs s ++
        [((process_recipe s r fp).2.concept_id, "630000000")]) ∧
    (¬(1 ≤ r.difficulty ∧ r.difficulty ≤ 5) →
      difficultyPairs (process_recipe s r fp).1 = difficultyPairs s) := by
  have hsnd : (process_recipe s r fp).2.concept_id
      = decStr (s.concept_id_counter + 1) := rfl
  constructor
  · intro h
    rw [difficultyPairs_process, hsnd, h,
      show difficulty_mapping.lookup (3 : Int) = some "630000000" from by decide]
    rfl
  · intro h
    rw [difficultyPairs_process, difficulty_lookup_none h]
    simp

/-- Witness for C3 on concrete records. -/
theorem C3_witness :
    (difficultyPairs (process_recipe initialState demoRecipeDiff3 "p").1 =
      difficultyPairs initialState ++
        [((process_recipe initialState demoRecipeDiff3 "p").2.concept_id, "630000000")]) ∧
    (difficultyPairs (process_recipe initialState demoRecipeDiff6 "p").1 =
      difficultyPairs initialState) :=
  ⟨(C3_difficulty_relationships initialState demoRecipeDiff3 "p").1 rfl,
   (C3_difficulty_relationships initialState demoRecipeDiff6 "p").2 (by decide)⟩

/-- C4 counterexample: the claim says `process_recipe` returns the newly
allocated concept id.  At a concrete input the newly allocated id is
`"201000001"`, yet the returned Python value is not that string (it is the
recipe concept dict). -/
theorem C4_counterexample :
    process_recipe_return initialState demoRecipe "p" ≠ PyReturn.str "201000001" ∧
    (process_recipe initialState demoRecipe "p").2.concept_id = "201000001" :=
  ⟨by decide, by decide⟩

/-- C4 (amended): `process_recipe` returns the newly created recipe concept
dict — not the bare concept id — and that dict's `concept_id` field is the
concept id newly allocated for the recipe; the returned concept is in the
store and has type Recipe. -/
theorem C4_returns_recipe_concept (s : BuilderState) (r : RecipeInfo)
    (fp : String) :
    process_recipe_return s r fp =
      PyReturn.dict (recipeConcept (decStr (s.concept_id_counter + 1)) r fp) ∧
    (process_recipe s r fp).2.concept_id = decStr (s.concept_id_counter + 1) ∧
    (process_recipe s r fp).2 ∈ (process_recipe s r fp).1.concepts ∧
    (process_recipe s r fp).2.concept_type = "Recipe" := by
  refine ⟨rfl, rfl, ?_, rfl⟩
  rw [process_recipe_fst, process_recipe_snd]
  set rid := decStr (s.concept_id_counter + 1)
  have hE : Extends (stateAfterRecipeConcept s r fp)
      (addDifficulty rid r.difficulty
        ((categorySegments r.category).foldl (addOneCategory rid)
          (r.steps.foldl (addStep rid)
            (r.ingredients.foldl (addIngredient rid)
              (stateAfterRecipeConcept s r fp))))) :=
    Extends.trans (extends_foldl (extends_addIngredient rid) _ _)
      (Extends.trans (extends_foldl (extends_addStep rid) _ _)
        (Extends.trans (extends_foldl (extends_addOneCategory rid) _ _)
          (extends_addDifficulty rid r.difficulty _)))
  obtain ⟨cs, hcs⟩ := hE.1
  rw [hcs]
  refine List.mem_append_left _ ?_
  exact List.mem_append_right _ (List.mem_singleton.mpr rfl)

/-- C5: the k-th `generate_concept_id` call (1-indexed) after construction
returns the decimal string of `201000000 + k`; all returned values in a run
are pairwise distinct and their numeric values strictly increase in call
order. -/
theorem C5_concept_id_allocation (n k : Nat) (h1 : 1 ≤ k) (h2 : k ≤ n) :
    (allocRun n initialState).get? (k - 1) = some (decStr (201000000 + k)) ∧
    (allocRun n initialState).Nodup ∧
    (∀ i j a b, i < j → (allocRun n initialState).get? i = some a →
      (allocRun n initialState).get? j = some b →
      decVal a.data < decVal b.data) := by
  have hrun : allocRun n initialState
      = (List.range n).map (fun i => decStr (201000000 + i + 1)) :=
    allocRun_eq n initialState
  refine ⟨?_, ?_, ?_⟩
  · have hk : k - 1 < n := by omega
    rw [hrun, List.get?_map, List.get?_range hk]
    have heq : 201000000 + (k - 1) + 1 = 201000000 + k := by omega
    simp only [Option.map_some']
    rw [heq]
  · rw [hrun]
    refine List.Nodup.map ?_ (List.nodup_range n)
    intro i j hij
    have := decStr_inj hij
    omega
  · intro i j a b hij ha hb
    rw [hrun] at ha hb
    have hlen : ((List.range n).map (fun i => decStr (201000000 + i + 1))).length
        = n := by simp
    have hi : i < n := by
      by_contra hcon
      push_neg at hcon
      rw [List.get?_eq_none.mpr (by rw [hlen]; omega)] at ha
      cases ha
    have hj : j < n := by
      by_contra hcon
      push_neg at hcon
      rw [List.get?_eq_none.mpr (by rw [hlen]; omega)] at hb
      cases hb
    rw [List.get?_map, List.get?_range hi] at ha
    rw [List.get?_map, List.get?_range hj] at hb
    simp only [Option.map_some'] at ha hb
    have ha2 : a = decStr (201000000 + i + 1) := (Option.some.inj ha).symm
    have hb2 : b = decStr (201000000 + j + 1) := (Option.some.inj hb).symm
    rw [ha2, hb2, decVal_decStr, decVal_decStr]
    omega

/-- Witness for C5 at `n = 3`, `k = 2`. -/
theorem C5_witness :
    (1 ≤ 2 ∧ 2 ≤ 3) ∧
    ((allocRun 3 initialState).get? (2 - 1) = some (decStr (201000000 + 2)) ∧
     (allocRun 3 initialState).Nodup ∧
     (∀ i j a b, i < j → (allocRun 3 initialState).get? i = some a →
        (allocRun 3 initialState).get? j = some b →
        decVal a.data < decVal b.data)) :=
  ⟨by decide, C5_concept_id_allocation 3 2 (by decide) (by decide)⟩

/-- C6: relationship ids are `R_` + zero-padded run-local counter, starting
at `R_000001`, assigned in creation order across the whole batch; they are
unique within a run and their encoded counters strictly increase with
creation order. -/
theorem C6_relationship_ids (batch : List (RecipeInfo × String)) :
    relIdsOK (processBatch initialState batch) ∧
    ((processBatch initialState batch).relationships.map
      (fun r => r.relationship_id)).Nodup ∧
    (∀ i j a b, i < j →
      (processBatch initialState batch).relationships.get? i = some a →
      (processBatch initialState batch).relationships.get? j = some b →
      relNum a < relNum b) := by
  have h := relIdsOK_processBatch batch
  refine ⟨h, relIdsOK_nodup h, ?_⟩
  intro i j a b hij ha hb
  have hA := relIdsOK_get? h ha
  have hB := relIdsOK_get? h hb
  unfold relNum
  rw [hA, hB, decVal_relId, decVal_relId]
  omega

/-- Witness for C6 on a concrete batch with two relationships. -/
theorem C6_witness :
    (0 : Nat) < 1 ∧
    (processBatch initialState [(demoRecipe2, "q")]).relationships.get? 0 =
      some demoRelIngredient2 ∧
    (processBatch initialState [(demoRecipe2, "q")]).relationships.get? 1 =
      some demoRelStep2 ∧
    relNum demoRelIngredient2 < relNum demoRelStep2 :=
  ⟨by decide, by decide, by decide,
   (C6_relationship_ids [(demoRecipe2, "q")]).2.2 0 1 demoRelIngredient2
     demoRelStep2 (by decide) (by decide) (by decide)⟩

/-- C7: the language tagger marks a candidate as "en"/"en-US" exactly when
its count of `[a-zA-Z\s-]` characters exceeds 0.7 of its length, and as
"zh"/"zh-CN" otherwise — CJK content makes no difference since the CJK
branch and the default branch produce the same record; the empty string is
classified as non-English with no division-by-zero error (`_is_english`
returns `false` on it, and it is tagged "zh"). -/
theorem C7_language_classification :
    (∀ (synonyms : List String),
      _categorize_synonyms_by_language synonyms = synonyms.map (fun t =>
        if 7 * t.data.length < 10 * (t.data.filter isEnglishChar).length then
          { term := t, language := "en", language_code := "en-US" }
        else { term := t, language := "zh", language_code := "zh-CN" })) ∧
    _is_english "" = false ∧
    categorizeOne "" = { term := "", language := "zh", language_code := "zh-CN" } := by
  refine ⟨?_, rfl, by decide⟩
  intro synonyms
  unfold _categorize_synonyms_by_language
  refine List.map_congr_left ?_
  intro t _
  by_cases ht : t = ""
  · subst ht
    decide
  · have hEng : _is_english t
        = decide (7 * t.data.length < 10 * (t.data.filter isEnglishChar).length) := by
      simp [_is_english, ht]
    by_cases hP : 7 * t.data.length < 10 * (t.data.filter isEnglishChar).length
    · simp [categorizeOne, hEng, hP]
    · simp [categorizeOne, hEng, hP]

/-- C8 counterexample: the name 的做法的做法 ends with the suffix 的做法, but
the generator's output does not contain the name with only that trailing
suffix stripped (的做法): Python's `replace` removes every occurrence, so the
base becomes the empty string. -/
theorem C8_counterexample :
    pyEndsWith "的做法的做法" "的做法" = true ∧
    ((_generate_recipe_synonyms "的做法的做法" "").map
      (fun rec => rec.term)).contains "的做法" = false :=
  ⟨by decide, by decide⟩

/-- C8 (amended): for every recipe name ending in 的做法, the output contains
the name with every occurrence of 的做法 removed (Python `replace`
semantics), plus that base with 制作方法 and with 烹饪方法 appended; for
红烧茄子的做法 the output contains the records 红烧茄子 and braised茄子的做法,
both tagged "zh"/"zh-CN" by the >0.7 Latin-ratio rule evaluated on each
candidate. -/
theorem C8_recipe_name_synonyms (name category : String)
    (h : pyEndsWith name "的做法" = true) :
    (∃ rec ∈ _generate_recipe_synonyms name category,
      rec.term = pyReplace name "的做法" "") ∧
    (∃ rec ∈ _generate_recipe_synonyms name category,
      rec.term = pyReplace name "的做法" "" ++ "制作方法") ∧
    (∃ rec ∈ _generate_recipe_synonyms name category,
      rec.term = pyReplace name "的做法" "" ++ "烹饪方法") ∧
    ({ term := "红烧茄子", language := "zh", language_code := "zh-CN" } : SynonymRecord)
      ∈ _generate_recipe_synonyms "红烧茄子的做法" category ∧
    ({ term := "braised茄子的做法", language := "zh", language_code := "zh-CN" } : SynonymRecord)
      ∈ _generate_recipe_synonyms "红烧茄子的做法" category := by
  rw [generate_recipe_synonyms_of_endsWith h category]
  refine ⟨mem_categorize (mem_pyDedup (by simp)),
          mem_categorize (mem_pyDedup (by simp)),
          mem_categorize (mem_pyDedup (by simp)), ?_, ?_⟩
  · rw [show _generate_recipe_synonyms "红烧茄子的做法" category
        = _generate_recipe_synonyms "红烧茄子的做法" "" from rfl]
    decide
  · rw [show _generate_recipe_synonyms "红烧茄子的做法" category
        = _generate_recipe_synonyms "红烧茄子的做法" "" from rfl]
    decide

/-- Witness for C8 at the name 红烧茄子的做法. -/
theorem C8_witness :
    (∃ rec ∈ _generate_recipe_synonyms "红烧茄子的做法" "",
      rec.term = pyReplace "红烧茄子的做法" "的做法" "") ∧
    (∃ rec ∈ _generate_recipe_synonyms "红烧茄子的做法" "",
      rec.term = pyReplace "红烧茄子的做法" "的做法" "" ++ "制作方法") ∧
    (∃ rec ∈ _generate_recipe_synonyms "红烧茄子的做法" "",
      rec.term = pyReplace "红烧茄子的做法" "的做法" "" ++ "烹饪方法") ∧
    ({ term := "红烧茄子", language := "zh", language_code := "zh-CN" } : SynonymRecord)
      ∈ _generate_recipe_synonyms "红烧茄子的做法" "" ∧
    ({ term := "braised茄子的做法", language := "zh", language_code := "zh-CN" } : SynonymRecord)
      ∈ _generate_recipe_synonyms "红烧茄子的做法" "" :=
  C8_recipe_name_synonyms "红烧茄子的做法" "" (by decide)

/-- C9: `process_recipe` never emits a `requires_tool` (801000002) or
`uses_method` (801000006) relationship and never creates a CookingTool or
CookingMethod concept; each step's tools and methods appear only as
comma-joined text fields on the corresponding CookingStep concept. -/
theorem C9_no_tool_method_materialization :
    (∀ (batch : List (RecipeInfo × String)),
      ∀ rel ∈ (processBatch initialState batch).relationships,
        rel.relationship_type ≠ "801000002" ∧
        rel.relationship_type ≠ "801000006") ∧
    (∀ (batch : List (RecipeInfo × String)),
      ∀ c ∈ (processBatch initialState batch).concepts,
        c.concept_type ≠ "CookingTool" ∧ c.concept_type ≠ "CookingMethod") ∧
    (∀ (s : BuilderState) (r : RecipeInfo) (fp : String), ∀ st ∈ r.steps,
      ∃ c ∈ (process_recipe s r fp).1.concepts,
        c.concept_type = "CookingStep" ∧
        c.methods = some (pyJoin "," st.methods) ∧
        c.tools = some (pyJoin "," st.tools) ∧
        c.step_number = some st.step_number) := by
  refine ⟨?_, ?_, ?_⟩
  · intro batch rel hmem
    have h := (typesOK_processBatch batch).1 rel hmem
    simp only [emittedRelTypes, List.mem_cons, List.not_mem_nil, or_false] at h
    rcases h with h | h | h | h <;> rw [h] <;> exact ⟨by decide, by decide⟩
  · intro batch c hmem
    have h := (typesOK_processBatch batch).2 c hmem
    simp only [emittedConceptTypes, List.mem_cons, List.not_mem_nil, or_false] at h
    rcases h with h | h | h <;> rw [h] <;> exact ⟨by decide, by decide⟩
  · intro s r fp st hmem
    exact stepConcept_in_process s r fp st hmem

/-- Witness for C9 on concrete inputs. -/
theorem C9_witness :
    (demoRelStep.relationship_type ≠ "801000002" ∧
     demoRelStep.relationship_type ≠ "801000006") ∧
    (demoStepConcept.concept_type ≠ "CookingTool" ∧
     demoStepConcept.concept_type ≠ "CookingMethod") ∧
    (∃ c ∈ (process_recipe initialState demoRecipe "p").1.concepts,
      c.concept_type = "CookingStep" ∧
      c.methods = some (pyJoin "," demoStep.methods) ∧
      c.tools = some (pyJoin "," demoStep.tools) ∧
      c.step_number = some demoStep.step_number) :=
  ⟨C9_no_tool_method_materialization.1 [(demoRecipe, "p")] demoRelStep (by decide),
   C9_no_tool_method_materialization.2.1 [(demoRecipe, "p")] demoStepConcept (by decide),
   C9_no_tool_method_materialization.2.2 initialState demoRecipe "p" demoStep (by decide)⟩

/-- C10: the recipe synonym generator ignores its `category` argument — it
is a pure function of the name and the fixed alias tables. -/
theorem C10_synonyms_ignore_category (name c1 c2 : String) :
    _generate_recipe_synonyms name c1 = _generate_recipe_synonyms name c2 :=
  rfl

end RecipeGraph
